import Mathlib

/-!
Shallow embedding of the frota-app backend function layer
(src/supabase/functions/server/index.tsx) and verification of the
spec claims about it.

Modelling conventions:
* The external key-value store (table kv_store_e4206deb) is modelled as a
  structure with one field per key namespace (trip:, user_trip:, vehicle:,
  vehicle:PLATE:last_oil_change, history:maintenance:, settings:).
* JavaScript ISO-8601 timestamp strings are modelled by their parsed epoch
  value as a Nat; a missing, empty or unparseable createdAt is modelled as
  none (the comparator maps all of those to 0, exactly as the source's
  getTimestamp does).
* JavaScript falsiness on strings is the test s = ""; on optional numbers
  the test is none-or-zero; these are made explicit where the source uses
  truthiness (for example the field validation of POST /trips and the
  x || default idiom).
* Handlers run after identity resolution, so they take the validated user
  as an argument; the request-header level is modelled separately for the
  settings endpoint and the per-endpoint authentication table.
-/

/-- Trip status: the source writes only the strings in_progress and
completed into the status field. -/
inductive TripStatus
| in_progress
| completed
deriving DecidableEq, Repr

/-- A trip record, as stored under key trip:ID by POST /trips and
PUT /trips/:id/complete. -/
structure Trip where
  id : Nat
  userId : Nat
  userName : String
  vehiclePlate : String
  vehicleColor : String
  vehicleModel : String
  kmStart : Int
  kmEnd : Option Int
  timeStart : String
  timeEnd : Option String
  destination : String
  status : TripStatus
  createdAt : Option Nat
  completedAt : Option Nat
deriving DecidableEq, Repr

/-- A vehicle record, as stored under key vehicle:PLATE. -/
structure Vehicle where
  plate : String
  model : String
  color : String
  year : String
  brand : String
  createdAt : Nat
  createdBy : Nat
  updatedAt : Option Nat
  updatedBy : Option Nat
deriving DecidableEq, Repr

/-- A maintenance history entry, stored under
history:maintenance:PLATE:ID by POST /vehicles/:plate/oil-change. -/
structure HistoryEntry where
  id : Nat
  plate : String
  type : String
  km : Int
  date : Nat
  userId : Nat
  userName : String
  notes : String
deriving DecidableEq, Repr

/-- The key-value store, split by key namespace. -/
structure Store where
  trips : List Trip
  userTripIndex : List (Nat × Nat)
  vehicles : List Vehicle
  oilChange : List (String × Int)
  maintenanceHistory : List HistoryEntry
  adminRegistration : Option Bool
deriving DecidableEq, Repr

/-- A validated user identity as produced by validateUser: id plus the
optional user_metadata name and role claims. -/
structure User where
  id : Nat
  name : Option String
  role : Option String
deriving DecidableEq, Repr

/-- The admin-tier role check used by the role-gated handlers:
role !== 'admin' && role !== 'super_admin' denies. -/
def isAdminTier (u : User) : Bool :=
  u.role = some "admin" || u.role = some "super_admin"

/-- getTimestamp from the availability comparator: parse createdAt,
mapping missing or unparseable values to 0 (epoch zero). -/
def tripGetTimestamp (t : Trip) : Nat :=
  t.createdAt.getD 0

/-- The sort comparator shared by the GET /vehicles availability scan and
the POST /trips availability check: descending by creation timestamp;
on equal timestamps a completed trip sorts before a non-completed one. -/
def tripCmp (a b : Trip) : Int :=
  let timeA : Int := tripGetTimestamp a
  let timeB : Int := tripGetTimestamp b
  if timeA ≠ timeB then timeB - timeA
  else if a.status = TripStatus.completed ∧ b.status ≠ TripStatus.completed then -1
  else if b.status = TripStatus.completed ∧ a.status ≠ TripStatus.completed then 1
  else 0

/-- Boolean order induced by the comparator (cmp a b ≤ 0 means a sorts at
or before b); Array.prototype.sort with a consistent comparator yields a
stable sort with respect to this order. -/
def tripLe (a b : Trip) : Bool :=
  tripCmp a b ≤ 0

/-- The comparator order as a decidable relation. -/
def tripLeR (a b : Trip) : Prop :=
  tripLe a b = true

instance : DecidableRel tripLeR :=
  fun a b => inferInstanceAs (Decidable (tripLe a b = true))

/-- allTrips.sort(comparator): Array.prototype.sort is a stable sort
with respect to the consistent comparator, modelled here by the stable
insertion sort under tripLeR. -/
def sortTripsDesc (l : List Trip) : List Trip :=
  List.insertionSort tripLeR l

/-- sortedTrips[0]: the first-ranked trip under the ordering, if any. -/
def latestTrip (l : List Trip) : Option Trip :=
  (sortTripsDesc l).head?

/-- The trips of one plate.  GET /vehicles groups trips by their (truthy)
vehiclePlate and POST /trips filters on equality with the requested,
validated non-empty plate; for a non-empty plate both give this list,
in store order. -/
def tripsForPlate (plate : String) (trips : List Trip) : List Trip :=
  trips.filter (fun t => t.vehiclePlate = plate)

/-- The availability resolver of GET /vehicles (and of the POST /trips
pre-check): the vehicle is unavailable exactly when the first-ranked trip
among its trips is still in_progress, and that trip is the activeTrip. -/
def resolveAvailability (plate : String) (trips : List Trip) : Bool × Option Trip :=
  match latestTrip (tripsForPlate plate trips) with
  | some t =>
      if t.status = TripStatus.in_progress then (false, some t) else (true, none)
  | none => (true, none)

/-- Rank used to state properties of the tie-break: completed trips rank
0, in_progress trips rank 1 (lower ranks first on equal timestamps). -/
def statusRank : TripStatus → Nat
| TripStatus.completed => 0
| TripStatus.in_progress => 1

theorem tripLe_iff (a b : Trip) :
    tripLe a b = true ↔
      (tripGetTimestamp b < tripGetTimestamp a ∨
        (tripGetTimestamp a = tripGetTimestamp b ∧
          statusRank a.status ≤ statusRank b.status)) := by
  by_cases h : tripGetTimestamp a = tripGetTimestamp b
  · cases hsa : a.status <;> cases hsb : b.status <;>
      simp [tripLe, tripCmp, h, hsa, hsb, statusRank]
  · have h2 : (tripGetTimestamp a : Int) ≠ (tripGetTimestamp b : Int) := by
      exact_mod_cast h
    simp only [tripLe, tripCmp, h2, ne_eq, not_false_eq_true, if_true,
      decide_eq_true_eq]
    omega

theorem tripLe_refl (a : Trip) : tripLe a a = true := by
  rw [tripLe_iff]
  right
  exact ⟨rfl, le_refl _⟩

theorem tripLe_trans (a b c : Trip) :
    tripLe a b → tripLe b c → tripLe a c := by
  intro hab hbc
  rw [tripLe_iff] at hab hbc ⊢
  rcases hab with h1 | ⟨e1, r1⟩ <;> rcases hbc with h2 | ⟨e2, r2⟩
  · exact Or.inl (lt_trans h2 h1)
  · exact Or.inl (by omega)
  · exact Or.inl (by omega)
  · exact Or.inr ⟨by omega, le_trans r1 r2⟩

theorem tripLe_total (a b : Trip) : tripLe a b || tripLe b a := by
  rcases Nat.lt_trichotomy (tripGetTimestamp a) (tripGetTimestamp b) with h | h | h
  · have : tripLe b a = true := by
      rw [tripLe_iff]; exact Or.inl h
    simp [this]
  · rcases Nat.le_total (statusRank a.status) (statusRank b.status) with hr | hr
    · have : tripLe a b = true := by
        rw [tripLe_iff]; exact Or.inr ⟨h, hr⟩
      simp [this]
    · have : tripLe b a = true := by
        rw [tripLe_iff]; exact Or.inr ⟨h.symm, hr⟩
      simp [this]
  · have : tripLe a b = true := by
      rw [tripLe_iff]; exact Or.inl h
    simp [this]

instance : IsTotal Trip tripLeR where
  total a b := by
    have h := tripLe_total a b
    simp only [Bool.or_eq_true] at h
    exact h

instance : IsTrans Trip tripLeR where
  trans a b c hab hbc := tripLe_trans a b c hab hbc

/-- The first-ranked trip is a member of the list and sorts at or before
every member of the list. -/
theorem latestTrip_spec (l : List Trip) (t : Trip)
    (h : latestTrip l = some t) :
    t ∈ l ∧ ∀ u ∈ l, tripLe t u = true := by
  unfold latestTrip sortTripsDesc at h
  have hsorted : List.Sorted tripLeR (List.insertionSort tripLeR l) :=
    List.sorted_insertionSort tripLeR l
  have hperm := List.perm_insertionSort tripLeR l
  cases hms : List.insertionSort tripLeR l with
  | nil => rw [hms] at h; simp at h
  | cons x xs =>
    rw [hms] at h
    have hxt : x = t := by simpa using h
    subst hxt
    rw [hms] at hsorted hperm
    constructor
    · exact hperm.mem_iff.mp (List.mem_cons_self _ _)
    · intro u hu
      rcases List.mem_cons.mp (hperm.mem_iff.mpr hu) with rfl | hmem
      · exact tripLe_refl u
      · exact (List.pairwise_cons.mp hsorted).1 u hmem

/-- A non-empty trip list has a first-ranked trip. -/
theorem latestTrip_ne_none (l : List Trip) (h : l ≠ []) :
    latestTrip l ≠ none := by
  unfold latestTrip sortTripsDesc
  intro hcon
  have hperm := List.perm_insertionSort tripLeR l
  cases hms : List.insertionSort tripLeR l with
  | nil =>
    rw [hms] at hperm
    exact h hperm.symm.eq_nil
  | cons x xs =>
    rw [hms] at hcon
    simp at hcon

/-- JavaScript truthiness test for an optional numeric field: both a
missing value and 0 are falsy. -/
def jsFalsyNum : Option Int → Bool
| none => true
| some k => k = 0

/-- The x || d idiom on an optional string: missing or empty falls back
to the default. -/
def jsOrStr (v : Option String) (d : String) : String :=
  match v with
  | none => d
  | some s => if s = "" then d else s

/-- The x || d idiom on an optional number: missing or 0 falls back to
the default. -/
def jsOrInt (v : Option Int) (d : Int) : Int :=
  match v with
  | none => d
  | some k => if k = 0 then d else k

/-- trim(): drop whitespace from both ends, modelled on the character
list so that it evaluates in the kernel. -/
def jsTrim (s : String) : String :=
  String.mk
    (((s.data.dropWhile Char.isWhitespace).reverse.dropWhile
        Char.isWhitespace).reverse)

/-- toUpperCase(), modelled characterwise (ASCII-faithful). -/
def jsToUpperCase (s : String) : String :=
  String.mk (s.data.map Char.toUpper)

/-- Plate normalization used by the vehicle handlers:
body.plate.trim().toUpperCase(). -/
def normalizePlate (s : String) : String :=
  jsToUpperCase (jsTrim s)

/-- Key-value upsert on the trip namespace (key trip:ID): replace the
record at the key if present, else insert. -/
def upsertTrip : List Trip → Trip → List Trip
| [], t => [t]
| u :: rest, t => if u.id = t.id then t :: rest else u :: upsertTrip rest t

/-- Key-value upsert on the user_trip:USER:TRIP index namespace (the key
determines the value, so the entry is the key). -/
def upsertIndex : List (Nat × Nat) → Nat × Nat → List (Nat × Nat)
| [], e => [e]
| x :: rest, e => if x = e then e :: rest else x :: upsertIndex rest e

/-- Key-value upsert on the vehicle:PLATE namespace. -/
def upsertVehicle : List Vehicle → Vehicle → List Vehicle
| [], v => [v]
| u :: rest, v =>
    if u.plate = v.plate then v :: rest else u :: upsertVehicle rest v

/-- Key-value upsert on the vehicle:PLATE:last_oil_change namespace. -/
def upsertOil : List (String × Int) → String → Int → List (String × Int)
| [], plate, km => [(plate, km)]
| e :: rest, plate, km =>
    if e.1 = plate then (plate, km) :: rest else e :: upsertOil rest plate km

/-- Point get on the vehicle:PLATE:last_oil_change namespace. -/
def lookupOil (l : List (String × Int)) (plate : String) : Option Int :=
  (l.find? (fun e => e.1 = plate)).map (fun e => e.2)

/-- Request body of POST /trips; a missing or empty string field is "",
and kmStart is none exactly when it is undefined or null in the JSON. -/
structure CreateTripBody where
  vehiclePlate : String
  vehicleColor : String
  vehicleModel : String
  kmStart : Option Int
  timeStart : String
  destination : String
deriving DecidableEq, Repr

/-- The field validation of POST /trips: !vehiclePlate || !vehicleColor
|| !vehicleModel || kmStart === undefined || kmStart === null ||
!timeStart || !destination.  Note that kmStart is only checked for
presence, not for sign (0 and negative values pass). -/
def createTripMissingField (b : CreateTripBody) : Bool :=
  b.vehiclePlate = "" || b.vehicleColor = "" || b.vehicleModel = "" ||
    b.kmStart = none || b.timeStart = "" || b.destination = ""

inductive CreateTripRes
| badRequest
| conflict (occupantName : String)
| ok (t : Trip)
deriving DecidableEq, Repr

/-- The successful tail of POST /trips: build the trip record with
status in_progress and write it plus the user_trip index entry. -/
def createTripInsert (store : Store) (user : User) (b : CreateTripBody)
    (tripId : Nat) (now : Nat) : CreateTripRes × Store :=
  let trip : Trip :=
    { id := tripId
      userId := user.id
      userName := jsOrStr user.name "Unknown"
      vehiclePlate := b.vehiclePlate
      vehicleColor := b.vehicleColor
      vehicleModel := b.vehicleModel
      kmStart := b.kmStart.getD 0
      kmEnd := none
      timeStart := b.timeStart
      timeEnd := none
      destination := b.destination
      status := TripStatus.in_progress
      createdAt := some now
      completedAt := none }
  (CreateTripRes.ok trip,
    { store with
        trips := upsertTrip store.trips trip
        userTripIndex := upsertIndex store.userTripIndex (user.id, tripId) })

/-- POST /trips: validate the fields, run the availability check over all
stored trips of the requested plate (same comparator as GET /vehicles),
reject with 409 naming the occupying user when the latest trip is still
in_progress, otherwise write the trip and its index entry. -/
def createTrip (store : Store) (user : User) (b : CreateTripBody)
    (tripId : Nat) (now : Nat) : CreateTripRes × Store :=
  if createTripMissingField b then (CreateTripRes.badRequest, store)
  else
    match latestTrip (tripsForPlate b.vehiclePlate store.trips) with
    | some latest =>
        if latest.status = TripStatus.in_progress then
          (CreateTripRes.conflict latest.userName, store)
        else createTripInsert store user b tripId now
    | none => createTripInsert store user b tripId now

/-- Request body of PUT /trips/:id/complete. -/
structure CompleteTripBody where
  kmEnd : Option Int
  timeEnd : String
deriving DecidableEq, Repr

inductive CompleteTripRes
| badRequest
| notFound
| forbidden
| ok (t : Trip)
deriving DecidableEq, Repr

/-- PUT /trips/:id/complete: require truthy kmEnd and timeEnd, require
the trip to exist and to belong to the caller, then overwrite it with
status completed.  The current status of the trip is never inspected. -/
def completeTrip (store : Store) (user : User) (tripId : Nat)
    (b : CompleteTripBody) (now : Nat) : CompleteTripRes × Store :=
  if jsFalsyNum b.kmEnd || b.timeEnd = "" then
    (CompleteTripRes.badRequest, store)
  else
    match store.trips.find? (fun t => t.id = tripId) with
    | none => (CompleteTripRes.notFound, store)
    | some trip =>
        if trip.userId ≠ user.id then (CompleteTripRes.forbidden, store)
        else
          let updated : Trip :=
            { trip with
                kmEnd := b.kmEnd
                timeEnd := some b.timeEnd
                status := TripStatus.completed
                completedAt := some now }
          (CompleteTripRes.ok updated,
            { store with trips := upsertTrip store.trips updated })

inductive DeleteTripRes
| ghostCleaned
| forbidden
| ok
deriving DecidableEq, Repr

/-- DELETE /trips/:id: when the primary record is absent, remove the
caller's user_trip index entry for the id and report success (the ghost
cleanup path); when present, require ownership or exactly the admin role
(user.user_metadata?.role !== 'admin'), then delete the record and the
owner's index entry. -/
def deleteTrip (store : Store) (user : User) (tripId : Nat) :
    DeleteTripRes × Store :=
  match store.trips.find? (fun t => t.id = tripId) with
  | none =>
      (DeleteTripRes.ghostCleaned,
        { store with
            userTripIndex := store.userTripIndex.filter
              (fun e => ¬(e.1 = user.id ∧ e.2 = tripId)) })
  | some trip =>
      if trip.userId ≠ user.id ∧ user.role ≠ some "admin" then
        (DeleteTripRes.forbidden, store)
      else
        (DeleteTripRes.ok,
          { store with
              trips := store.trips.filter (fun t => ¬t.id = tripId)
              userTripIndex := store.userTripIndex.filter
                (fun e => ¬(e.1 = trip.userId ∧ e.2 = tripId)) })

/-- Request body of PUT /vehicles/:plate; optional fields, with the empty
string standing for a present-but-falsy value. -/
structure UpdateVehicleBody where
  plate : Option String
  model : Option String
  color : Option String
  year : Option String
  brand : Option String
deriving DecidableEq, Repr

inductive UpdateVehicleRes
| forbidden
| notFound
| conflict
| ok (v : Vehicle)
deriving DecidableEq, Repr

/-- PUT /vehicles/:plate: admin-tier gate; normalize body.plate;
404 when no vehicle sits at the URL plate; targetPlate = plate ||
plateParam; on a rename, 409 before any write if the target plate is
taken; otherwise upsert the updated record at the target plate, and on a
rename delete the old record and migrate the oil-change watermark key. -/
def updateVehicle (store : Store) (user : User) (plateParam : String)
    (b : UpdateVehicleBody) (now : Nat) : UpdateVehicleRes × Store :=
  if ¬isAdminTier user then (UpdateVehicleRes.forbidden, store)
  else
    let bodyPlate := b.plate.map normalizePlate
    match store.vehicles.find? (fun v => v.plate = plateParam) with
    | none => (UpdateVehicleRes.notFound, store)
    | some existing =>
        let targetPlate := jsOrStr bodyPlate plateParam
        if targetPlate ≠ plateParam ∧
            store.vehicles.any (fun v => v.plate = targetPlate) then
          (UpdateVehicleRes.conflict, store)
        else
          let updated : Vehicle :=
            { existing with
                plate := targetPlate
                model := jsOrStr b.model existing.model
                color := jsOrStr b.color existing.color
                year := jsOrStr b.year existing.year
                brand := jsOrStr b.brand existing.brand
                updatedAt := some now
                updatedBy := some user.id }
          let vehicles1 := upsertVehicle store.vehicles updated
          if targetPlate ≠ plateParam then
            let vehicles2 := vehicles1.filter (fun v => ¬v.plate = plateParam)
            let oil1 :=
              match lookupOil store.oilChange plateParam with
              | some w =>
                  (upsertOil store.oilChange targetPlate w).filter
                    (fun e => ¬e.1 = plateParam)
              | none => store.oilChange
            (UpdateVehicleRes.ok updated,
              { store with vehicles := vehicles2, oilChange := oil1 })
          else
            (UpdateVehicleRes.ok updated, { store with vehicles := vehicles1 })

/-- Response of GET /vehicles/:plate/maintenance. -/
structure MaintenanceInfo where
  totalKm : Int
  lastOilChange : Int
  kmSinceOilChange : Int
  needsOilChange : Bool
deriving DecidableEq, Repr

/-- The completed trips of a plate, in store order: the filter of
GET /vehicles/:plate/maintenance. -/
def completedTripsForPlate (plate : String) (trips : List Trip) : List Trip :=
  trips.filter
    (fun t => t.vehiclePlate = plate ∧ t.status = TripStatus.completed)

/-- The totalKm reduction: sum of (kmEnd || 0) - (kmStart || 0) over the
completed trips of the plate (kmStart is a plain number, on which || 0 is
the identity on the stored values). -/
def totalKmForPlate (plate : String) (trips : List Trip) : Int :=
  (completedTripsForPlate plate trips).foldl
    (fun sum t => sum + (jsOrInt t.kmEnd 0 - jsOrInt (some t.kmStart) 0)) 0

/-- GET /vehicles/:plate/maintenance: totalKm from completed trips; the
watermark read is oilData?.[0]?.value || 0; kmSinceOilChange is their
difference, and needsOilChange compares it against 10000. -/
def maintenanceInfo (store : Store) (plate : String) : MaintenanceInfo :=
  let totalKm := totalKmForPlate plate store.trips
  let lastOilChange := jsOrInt (lookupOil store.oilChange plate) 0
  let kmSince := totalKm - lastOilChange
  { totalKm := totalKm
    lastOilChange := lastOilChange
    kmSinceOilChange := kmSince
    needsOilChange := kmSince ≥ 10000 }

inductive OilChangeRes
| badRequest
| ok
deriving DecidableEq, Repr

/-- POST /vehicles/:plate/oil-change: !currentKm rejects a missing or
zero value with 400; otherwise the watermark at
vehicle:PLATE:last_oil_change is overwritten with currentKm and a
history entry is appended (best effort, modelled as always succeeding). -/
def recordOilChange (store : Store) (user : User) (plate : String)
    (currentKm : Option Int) (historyId : Nat) (now : Nat) :
    OilChangeRes × Store :=
  if jsFalsyNum currentKm then (OilChangeRes.badRequest, store)
  else
    let km := currentKm.getD 0
    let entry : HistoryEntry :=
      { id := historyId
        plate := plate
        type := "oil_change"
        km := km
        date := now
        userId := user.id
        userName := jsOrStr user.name "Usuário"
        notes := "Troca de óleo realizada em " ++ toString km ++ "km" }
    (OilChangeRes.ok,
      { store with
          oilChange := upsertOil store.oilChange plate km
          maintenanceHistory := store.maintenanceHistory ++ [entry] })

/-- The credential headers a request may carry. -/
structure Headers where
  authorization : Option String
  xAccessToken : Option String
deriving DecidableEq, Repr

/-- GET /settings/admin-registration: the handler never reads the
credential headers and never calls the identity resolver; it returns
data?.[0]?.value ?? false, the stored flag with nullish default false. -/
def getAdminRegistrationSetting (store : Store) (_headers : Headers) : Bool :=
  store.adminRegistration.getD false

/-- The routes registered on the Hono app, in source order. -/
inductive Endpoint
| health
| testToken
| signup
| tripsCreate
| tripComplete
| tripDelete
| tripsList
| adminTrips
| vehicleMaintenance
| vehicleOilChange
| vehicleMaintenanceHistory
| vehicleCreate
| vehicleUpdate
| vehiclesList
| adminVehicles
| vehicleDelete
| vehicleFuel
| vehicleLastTrip
| adminUsers
| settingsAdminRegistrationGet
| settingsAdminRegistrationPut
| adminUserDelete
| adminUserRole
deriving DecidableEq, Repr

/-- Whether the handler of the route begins by calling validateUser and
returns its 401 on failure, read off the source of each handler.  The
health check, the token test endpoint, the signup endpoint and the
admin-registration settings read are the only handlers that do not. -/
def callsValidateUser : Endpoint → Bool
| Endpoint.health => false
| Endpoint.testToken => false
| Endpoint.signup => false
| Endpoint.tripsCreate => true
| Endpoint.tripComplete => true
| Endpoint.tripDelete => true
| Endpoint.tripsList => true
| Endpoint.adminTrips => true
| Endpoint.vehicleMaintenance => true
| Endpoint.vehicleOilChange => true
| Endpoint.vehicleMaintenanceHistory => true
| Endpoint.vehicleCreate => true
| Endpoint.vehicleUpdate => true
| Endpoint.vehiclesList => true
| Endpoint.adminVehicles => true
| Endpoint.vehicleDelete => true
| Endpoint.vehicleFuel => true
| Endpoint.vehicleLastTrip => true
| Endpoint.adminUsers => true
| Endpoint.settingsAdminRegistrationGet => false
| Endpoint.settingsAdminRegistrationPut => true
| Endpoint.adminUserDelete => true
| Endpoint.adminUserRole => true

/-- Concrete completed trip used by witnesses: created at epoch 100. -/
def exTripCompleted : Trip :=
  { id := 1
    userId := 7
    userName := "Ana"
    vehiclePlate := "ABC-123"
    vehicleColor := "Preto"
    vehicleModel := "Onix"
    kmStart := 100
    kmEnd := some 150
    timeStart := "08:00"
    timeEnd := some "09:00"
    destination := "Centro"
    status := TripStatus.completed
    createdAt := some 100
    completedAt := some 200 }

/-- Concrete in_progress trip, same creation instant as exTripCompleted
(a stuck duplicate). -/
def exTripStuck : Trip :=
  { exTripCompleted with
      id := 2
      kmEnd := none
      timeEnd := none
      status := TripStatus.in_progress
      completedAt := none }

/-- Concrete older in_progress trip for the same plate. -/
def exTripOld : Trip :=
  { exTripCompleted with
      id := 3
      kmEnd := none
      timeEnd := none
      status := TripStatus.in_progress
      createdAt := some 50
      completedAt := none }

/-- Concrete newer in_progress trip for the same plate. -/
def exTripActive : Trip :=
  { exTripCompleted with
      id := 4
      kmEnd := none
      timeEnd := none
      status := TripStatus.in_progress
      createdAt := some 300
      completedAt := none }

/-- C1: for every set of trip records referencing a given vehicle plate,
the availability resolver reports the vehicle unavailable iff the
first-ranked trip under its ordering (descending creation timestamp,
missing or unparseable timestamps treated as epoch zero, as captured by
tripLe) has status in_progress, in which case that trip and no other is
returned as the activeTrip; a vehicle with zero trips is always
available with no active trip, regardless of how many older in_progress
trips exist for other plates. -/
theorem c1_availability_resolver (plate : String) (trips : List Trip) :
    ((resolveAvailability plate trips).1 = false ↔
      ∃ t, latestTrip (tripsForPlate plate trips) = some t ∧
        t.status = TripStatus.in_progress)
    ∧ (∀ t, latestTrip (tripsForPlate plate trips) = some t →
        t ∈ tripsForPlate plate trips ∧
          ∀ u ∈ tripsForPlate plate trips, tripLe t u = true)
    ∧ (∀ t, (resolveAvailability plate trips).2 = some t →
        latestTrip (tripsForPlate plate trips) = some t ∧
          t.status = TripStatus.in_progress)
    ∧ ((resolveAvailability plate trips).1 = false →
        (resolveAvailability plate trips).2 =
          latestTrip (tripsForPlate plate trips))
    ∧ ((resolveAvailability plate trips).1 = true →
        (resolveAvailability plate trips).2 = none)
    ∧ (tripsForPlate plate trips = [] →
        (resolveAvailability plate trips).1 = true ∧
          (resolveAvailability plate trips).2 = none) := by
  have hspec : ∀ t, latestTrip (tripsForPlate plate trips) = some t →
      t ∈ tripsForPlate plate trips ∧
        ∀ u ∈ tripsForPlate plate trips, tripLe t u = true :=
    fun t ht => latestTrip_spec _ t ht
  cases hlt : latestTrip (tripsForPlate plate trips) with
  | none =>
      have hres : resolveAvailability plate trips = (true, none) := by
        simp [resolveAvailability, hlt]
      refine ⟨?_, ?_, ?_, ?_, ?_, ?_⟩
      · rw [hres]; simp
      · intro t ht; simp at ht
      · intro t ht; rw [hres] at ht; simp at ht
      · intro hav; rw [hres] at hav; simp at hav
      · intro _; rw [hres]
      · intro _; rw [hres]; exact ⟨rfl, rfl⟩
  | some t0 =>
      by_cases hst : t0.status = TripStatus.in_progress
      · have hres : resolveAvailability plate trips = (false, some t0) := by
          simp [resolveAvailability, hlt, hst]
        refine ⟨?_, ?_, ?_, ?_, ?_, ?_⟩
        · rw [hres]
          exact ⟨fun _ => ⟨t0, rfl, hst⟩, fun _ => rfl⟩
        · intro t ht
          exact hspec t (hlt.trans ht)
        · intro t ht
          rw [hres] at ht
          have heq : t0 = t := by simpa using ht
          subst heq
          exact ⟨rfl, hst⟩
        · intro _; rw [hres]
        · intro hav; rw [hres] at hav; simp at hav
        · intro hempty
          rw [hempty] at hlt
          simp [latestTrip, sortTripsDesc] at hlt
      · have hres : resolveAvailability plate trips = (true, none) := by
          simp [resolveAvailability, hlt, hst]
        refine ⟨?_, ?_, ?_, ?_, ?_, ?_⟩
        · rw [hres]
          constructor
          · intro hfalse; simp at hfalse
          · rintro ⟨t, ht, hs⟩
            have heq : t0 = t := by simpa using ht
            subst heq
            exact absurd hs hst
        · intro t ht
          exact hspec t (hlt.trans ht)
        · intro t ht; rw [hres] at ht; simp at ht
        · intro hav; rw [hres] at hav; simp at hav
        · intro _; rw [hres]
        · intro _; rw [hres]; exact ⟨rfl, rfl⟩

/-- Witness for C1: a vehicle with zero trips is available with no
active trip. -/
theorem c1_availability_resolver_witness :
    (resolveAvailability "ABC-123" []).1 = true ∧
      (resolveAvailability "ABC-123" []).2 = none :=
  (c1_availability_resolver "ABC-123" []).2.2.2.2.2 rfl

/-- C2: on equal creation timestamps (including both missing), the
comparator ranks a completed trip strictly before an in_progress one,
and whenever the first-ranked trip of a plate is completed the resolver
reports the vehicle available with no active trip, no matter how many
older in_progress trips the plate has. -/
theorem c2_tiebreak_completed_first :
    (∀ a b : Trip, tripGetTimestamp a = tripGetTimestamp b →
      a.status = TripStatus.completed → b.status = TripStatus.in_progress →
      tripCmp a b = -1 ∧ tripLe a b = true ∧ tripLe b a = false)
    ∧ (∀ (plate : String) (trips : List Trip) (t : Trip),
        latestTrip (tripsForPlate plate trips) = some t →
        t.status = TripStatus.completed →
        resolveAvailability plate trips = (true, none)) := by
  constructor
  · intro a b heq ha hb
    have hcmp : tripCmp a b = -1 := by
      simp [tripCmp, heq, ha, hb]
    have hcmp2 : tripCmp b a = 1 := by
      simp [tripCmp, heq, ha, hb]
    refine ⟨hcmp, ?_, ?_⟩
    · simp [tripLe, hcmp]
    · simp [tripLe, hcmp2]
  · intro plate trips t hlt hst
    simp [resolveAvailability, hlt, hst]

/-- Witness for C2: a completed trip and a stuck in_progress duplicate
written at the same instant, plus an older in_progress trip: the
completed one ranks first and the vehicle is reported available. -/
theorem c2_tiebreak_completed_first_witness :
    resolveAvailability "ABC-123" [exTripStuck, exTripCompleted, exTripOld] =
      (true, none) :=
  c2_tiebreak_completed_first.2 "ABC-123"
    [exTripStuck, exTripCompleted, exTripOld] exTripCompleted
    (by decide) (by decide)

/-- Concrete user: the driver who owns the example trips. -/
def exOwner : User :=
  { id := 7, name := some "Ana", role := some "driver" }

/-- Concrete user with the admin role. -/
def exAdmin : User :=
  { id := 20, name := some "Carla", role := some "admin" }

/-- Concrete user with the super_admin role who owns no trip. -/
def exSuperAdmin : User :=
  { id := 21, name := some "Davi", role := some "super_admin" }

/-- Concrete store whose only trip for plate ABC-123 is in_progress. -/
def exStoreBusy : Store :=
  { trips := [exTripActive]
    userTripIndex := [(7, 4)]
    vehicles := []
    oilChange := []
    maintenanceHistory := []
    adminRegistration := none }

/-- Concrete well-formed create-trip request body. -/
def exCreateBody : CreateTripBody :=
  { vehiclePlate := "ABC-123"
    vehicleColor := "Preto"
    vehicleModel := "Onix"
    kmStart := some 150
    timeStart := "10:00"
    destination := "Centro" }

/-- C3: for every create-trip request (passing field validation) on a
vehicle the availability resolver reports occupied, the handler answers
with the 409 conflict naming the occupying user and returns the store
untouched: no trip record and no user_trip index entry is written. -/
theorem c3_create_trip_conflict (store : Store) (user : User)
    (b : CreateTripBody) (tripId now : Nat) (t : Trip)
    (hvalid : createTripMissingField b = false)
    (hocc : resolveAvailability b.vehiclePlate store.trips = (false, some t)) :
    createTrip store user b tripId now =
      (CreateTripRes.conflict t.userName, store) := by
  have hinv : latestTrip (tripsForPlate b.vehiclePlate store.trips) = some t ∧
      t.status = TripStatus.in_progress := by
    cases hlt : latestTrip (tripsForPlate b.vehiclePlate store.trips) with
    | none =>
        simp [resolveAvailability, hlt] at hocc
    | some u =>
        by_cases hs : u.status = TripStatus.in_progress
        · have hu : u = t := by
            simpa [resolveAvailability, hlt, hs] using hocc
          subst hu
          exact ⟨rfl, hs⟩
        · simp [resolveAvailability, hlt, hs] at hocc
  unfold createTrip
  simp [hvalid, hinv.1, hinv.2]

/-- Witness for C3: creating a trip for the busy vehicle is refused with
the occupying user's name and the store is unchanged. -/
theorem c3_create_trip_conflict_witness :
    createTrip exStoreBusy exOwner exCreateBody 9 400 =
      (CreateTripRes.conflict "Ana", exStoreBusy) := by
  have h := c3_create_trip_conflict exStoreBusy exOwner exCreateBody 9 400
    exTripActive (by decide) (by decide)
  simpa [exTripActive, exTripCompleted] using h

/-- Concrete store holding one already-completed trip (id 1, owner 7). -/
def exStoreCompleted : Store :=
  { trips := [exTripCompleted]
    userTripIndex := [(7, 1)]
    vehicles := []
    oilChange := []
    maintenanceHistory := []
    adminRegistration := none }

/-- Concrete second completion request for the already-completed trip. -/
def exSecondCompleteBody : CompleteTripBody :=
  { kmEnd := some 180, timeEnd := "11:00" }

/-- C4 counterexample: trip 1 of exStoreCompleted is already completed,
yet a second complete call by its owner succeeds (it is not rejected);
the handler re-completes the trip, overwriting kmEnd, timeEnd and
completedAt.  This refutes the claim that the second call must fail. -/
theorem c4_counterexample :
    (exStoreCompleted.trips.find? (fun t => t.id = 1)).map Trip.status =
      some TripStatus.completed
    ∧ (completeTrip exStoreCompleted exOwner 1 exSecondCompleteBody 900).1 =
        CompleteTripRes.ok
          { exTripCompleted with
              kmEnd := some 180
              timeEnd := some "11:00"
              status := TripStatus.completed
              completedAt := some 900 } := by
  constructor
  · decide
  · decide

/-- C4 amended: completing the same trip twice succeeds on the second
call.  The handler checks only that kmEnd and timeEnd are truthy, that
the trip exists and that the caller owns it — the stored status is never
inspected — so a second complete request by the owner is accepted and
overwrites kmEnd, timeEnd and completedAt. -/
theorem c4_second_complete_succeeds (store : Store) (user : User)
    (tripId : Nat) (b : CompleteTripBody) (now : Nat) (trip : Trip)
    (hfind : store.trips.find? (fun t => t.id = tripId) = some trip)
    (hdone : trip.status = TripStatus.completed)
    (howner : trip.userId = user.id)
    (hkm : jsFalsyNum b.kmEnd = false)
    (ht : ¬b.timeEnd = "") :
    completeTrip store user tripId b now =
      (CompleteTripRes.ok
          { trip with
              kmEnd := b.kmEnd
              timeEnd := some b.timeEnd
              status := TripStatus.completed
              completedAt := some now },
        { store with
            trips := upsertTrip store.trips
              { trip with
                  kmEnd := b.kmEnd
                  timeEnd := some b.timeEnd
                  status := TripStatus.completed
                  completedAt := some now } }) := by
  unfold completeTrip
  simp [hkm, ht, hfind, howner]

/-- Witness for C4's amended theorem at the concrete store. -/
theorem c4_second_complete_succeeds_witness :
    (completeTrip exStoreCompleted exOwner 1 exSecondCompleteBody 900).1 =
      CompleteTripRes.ok
        { exTripCompleted with
            kmEnd := some 180
            timeEnd := some "11:00"
            status := TripStatus.completed
            completedAt := some 900 } := by
  have h := c4_second_complete_succeeds exStoreCompleted exOwner 1
    exSecondCompleteBody 900 exTripCompleted (by decide) (by decide)
    (by decide) (by decide) (by decide)
  rw [h]
  decide

/-- C5: deleting a trip id with no primary record always reports success
(the DeleteTripRes type of the handler has no 404 outcome at all, and
this branch returns the ghost-cleanup success), after removing the
caller's own user_trip index entry for that id; nothing else in the
store changes. -/
theorem c5_ghost_delete_succeeds (store : Store) (user : User) (tripId : Nat)
    (habsent : store.trips.find? (fun t => t.id = tripId) = none) :
    deleteTrip store user tripId =
      (DeleteTripRes.ghostCleaned,
        { store with
            userTripIndex := store.userTripIndex.filter
              (fun e => ¬(e.1 = user.id ∧ e.2 = tripId)) }) := by
  unfold deleteTrip
  rw [habsent]

/-- Witness for C5: deleting the unknown trip id 99 succeeds and removes
the caller's stale index entry for id 99. -/
theorem c5_ghost_delete_succeeds_witness :
    deleteTrip
        { exStoreCompleted with userTripIndex := [(7, 1), (7, 99)] }
        exOwner 99 =
      (DeleteTripRes.ghostCleaned,
        { exStoreCompleted with userTripIndex := [(7, 1)] }) := by
  have h := c5_ghost_delete_succeeds
    { exStoreCompleted with userTripIndex := [(7, 1), (7, 99)] }
    exOwner 99 (by decide)
  rw [h]
  decide

/-- C6 counterexample: a super_admin who does not own trip 1 asks to
delete it and receives the 403 forbidden answer, with the store left
unchanged — refuting the claim that any admin-tier caller (admin or
super_admin) may delete another user's trip. -/
theorem c6_counterexample :
    exSuperAdmin.role = some "super_admin"
    ∧ (exStoreCompleted.trips.find? (fun t => t.id = 1)).map Trip.userId =
        some 7
    ∧ exSuperAdmin.id ≠ 7
    ∧ deleteTrip exStoreCompleted exSuperAdmin 1 =
        (DeleteTripRes.forbidden, exStoreCompleted) := by
  refine ⟨rfl, ?_, ?_, ?_⟩ <;> decide

/-- C6 amended: for an existing trip, the delete succeeds exactly when
the caller owns the trip or has exactly the role admin (the check is
trip.userId !== user.id && user.user_metadata?.role !== 'admin', so a
non-owner super_admin is rejected); on success the trip record and the
owner's index entry are removed, otherwise the caller gets 403 and the
store is unchanged. -/
theorem c6_delete_permission (store : Store) (user : User) (tripId : Nat)
    (trip : Trip)
    (hfind : store.trips.find? (fun t => t.id = tripId) = some trip) :
    ((trip.userId = user.id ∨ user.role = some "admin") →
      deleteTrip store user tripId =
        (DeleteTripRes.ok,
          { store with
              trips := store.trips.filter (fun t => ¬t.id = tripId)
              userTripIndex := store.userTripIndex.filter
                (fun e => ¬(e.1 = trip.userId ∧ e.2 = tripId)) }))
    ∧ (¬(trip.userId = user.id ∨ user.role = some "admin") →
      deleteTrip store user tripId = (DeleteTripRes.forbidden, store)) := by
  constructor
  · intro hperm
    have hcond : ¬(trip.userId ≠ user.id ∧ user.role ≠ some "admin") := by
      tauto
    unfold deleteTrip
    rw [hfind]
    simp only [if_neg hcond]
  · intro hperm
    have hcond : trip.userId ≠ user.id ∧ user.role ≠ some "admin" := by
      tauto
    unfold deleteTrip
    rw [hfind]
    simp only [if_pos hcond]

/-- Witness for C6's amended theorem: the admin, not owning trip 1,
deletes it; the record and its index entry are removed. -/
theorem c6_delete_permission_witness :
    deleteTrip exStoreCompleted exAdmin 1 =
      (DeleteTripRes.ok,
        { exStoreCompleted with trips := [], userTripIndex := [] }) := by
  have h := (c6_delete_permission exStoreCompleted exAdmin 1 exTripCompleted
    (by decide)).1 (Or.inr rfl)
  rw [h]
  decide

/-- Concrete vehicle at plate ABC-123. -/
def exVehicleA : Vehicle :=
  { plate := "ABC-123"
    model := "Onix"
    color := "Preto"
    year := "2020"
    brand := "Chevrolet"
    createdAt := 10
    createdBy := 20
    updatedAt := none
    updatedBy := none }

/-- Concrete vehicle at plate XYZ-001. -/
def exVehicleB : Vehicle :=
  { plate := "XYZ-001"
    model := "Gol"
    color := "Branco"
    year := "2018"
    brand := "Volkswagen"
    createdAt := 11
    createdBy := 20
    updatedAt := none
    updatedBy := none }

/-- Concrete store with both vehicles and their oil-change watermarks. -/
def exStoreTwoVehicles : Store :=
  { trips := []
    userTripIndex := []
    vehicles := [exVehicleA, exVehicleB]
    oilChange := [("ABC-123", 40000), ("XYZ-001", 30000)]
    maintenanceHistory := []
    adminRegistration := none }

/-- Rename request: move the vehicle at the URL plate to plate XYZ-001
(already normalized by trim and uppercase in the handler). -/
def exRenameBody : UpdateVehicleBody :=
  { plate := some "xyz-001"
    model := none
    color := none
    year := none
    brand := none }

/-- C7: a vehicle-update request that renames plate A to a plate B at
which a record already exists is rejected with the 409 conflict before
any mutation: the result store is exactly the input store, so A's
record, the record at B and both oil-change watermark keys are all
unchanged. -/
theorem c7_rename_collision (store : Store) (user : User)
    (plateParam : String) (b : UpdateVehicleBody) (now : Nat)
    (existing : Vehicle)
    (hadmin : isAdminTier user = true)
    (hfind : store.vehicles.find? (fun v => v.plate = plateParam) =
      some existing)
    (hrename : jsOrStr (b.plate.map normalizePlate) plateParam ≠ plateParam)
    (hcol : store.vehicles.any
      (fun v => v.plate = jsOrStr (b.plate.map normalizePlate) plateParam) =
        true) :
    updateVehicle store user plateParam b now =
      (UpdateVehicleRes.conflict, store) := by
  unfold updateVehicle
  rw [if_neg (not_not_intro hadmin)]
  simp only [hfind]
  rw [if_pos ⟨hrename, hcol⟩]

/-- Witness for C7: renaming ABC-123 to the taken plate xyz-001 (which
normalizes to XYZ-001) is refused and the store is unchanged. -/
theorem c7_rename_collision_witness :
    updateVehicle exStoreTwoVehicles exAdmin "ABC-123" exRenameBody 500 =
      (UpdateVehicleRes.conflict, exStoreTwoVehicles) :=
  c7_rename_collision exStoreTwoVehicles exAdmin "ABC-123" exRenameBody 500
    exVehicleA (by decide) (by decide) (by decide) (by decide)

/-- Reading the watermark back after an upsert at the same plate yields
exactly the written value. -/
theorem lookupOil_upsert (l : List (String × Int)) (plate : String)
    (km : Int) :
    lookupOil (upsertOil l plate km) plate = some km := by
  induction l with
  | nil => simp [upsertOil, lookupOil]
  | cons e rest ih =>
      by_cases he : e.1 = plate
      · simp [upsertOil, lookupOil, he]
      · simpa [upsertOil, lookupOil, he] using ih

/-- Upserting the watermark of one plate does not touch the trip
records. -/
theorem recordOilChange_trips (store : Store) (user : User) (plate : String)
    (currentKm : Option Int) (historyId now : Nat) :
    ((recordOilChange store user plate currentKm historyId now).2).trips =
      store.trips := by
  unfold recordOilChange
  by_cases h : jsFalsyNum currentKm <;> simp [h]

/-- C8: recording an oil change with a positive currentKm = k overwrites
the per-plate watermark to exactly k (whatever it held before), and the
maintenance view computed afterwards has totalKm equal to the
(kmEnd - kmStart)-sum over the plate's completed trips (which are
untouched), kmSinceOilChange = totalKm - k and needsOilChange true iff
that difference is at least 10000; a missing watermark reads as 0. -/
theorem c8_oil_change_watermark (store : Store) (user : User)
    (plate : String) (k : Int) (historyId now : Nat) (hk : 0 < k) :
    (recordOilChange store user plate (some k) historyId now).1 =
      OilChangeRes.ok
    ∧ lookupOil
        ((recordOilChange store user plate (some k) historyId now).2).oilChange
        plate = some k
    ∧ maintenanceInfo
        ((recordOilChange store user plate (some k) historyId now).2) plate =
      { totalKm := totalKmForPlate plate store.trips
        lastOilChange := k
        kmSinceOilChange := totalKmForPlate plate store.trips - k
        needsOilChange := totalKmForPlate plate store.trips - k ≥ 10000 }
    ∧ (∀ (store2 : Store) (plate2 : String),
        lookupOil store2.oilChange plate2 = none →
        (maintenanceInfo store2 plate2).lastOilChange = 0) := by
  have hne : k ≠ 0 := by omega
  have hfalsy : jsFalsyNum (some k) = false := by
    simp [jsFalsyNum, hne]
  refine ⟨?_, ?_, ?_, ?_⟩
  · unfold recordOilChange
    rw [hfalsy]
    simp
  · unfold recordOilChange
    rw [hfalsy]
    simpa using lookupOil_upsert store.oilChange plate k
  · have htr := recordOilChange_trips store user plate (some k) historyId now
    have hoil : lookupOil
        ((recordOilChange store user plate (some k) historyId now).2).oilChange
        plate = some k := by
      unfold recordOilChange
      rw [hfalsy]
      simpa using lookupOil_upsert store.oilChange plate k
    unfold maintenanceInfo
    rw [htr, hoil]
    simp [jsOrInt, hne]
  · intro store2 plate2 hnone
    unfold maintenanceInfo
    rw [hnone]
    simp [jsOrInt]

/-- Witness for C8: the spec's scenario — one completed trip from km 100
to km 10300 and an old watermark of 40000 for XYZ-001; recording an oil
change at 300 km overwrites (not adds to) the watermark. -/
theorem c8_oil_change_watermark_witness :
    lookupOil
        ((recordOilChange
            { exStoreTwoVehicles with
                trips := [{ exTripCompleted with
                              vehiclePlate := "XYZ-001"
                              kmStart := 100
                              kmEnd := some 10300 }] }
            exOwner "XYZ-001" (some 300) 50 777).2).oilChange
        "XYZ-001" = some 300 :=
  (c8_oil_change_watermark
    { exStoreTwoVehicles with
        trips := [{ exTripCompleted with
                      vehiclePlate := "XYZ-001"
                      kmStart := 100
                      kmEnd := some 10300 }] }
    exOwner "XYZ-001" 300 50 777 (by norm_num)).2.1

/-- Empty store. -/
def emptyStore : Store :=
  { trips := []
    userTripIndex := []
    vehicles := []
    oilChange := []
    maintenanceHistory := []
    adminRegistration := none }

/-- Create-trip request whose fields are all present but whose kmStart
is negative. -/
def exNegativeKmBody : CreateTripBody :=
  { vehiclePlate := "DEF-456"
    vehicleColor := "Azul"
    vehicleModel := "Gol"
    kmStart := some (-1)
    timeStart := "07:30"
    destination := "Obra" }

/-- Create-trip request with an empty destination. -/
def exMissingFieldBody : CreateTripBody :=
  { exNegativeKmBody with kmStart := some 10, destination := "" }

/-- C9 counterexample: a create-trip request with every field present
but kmStart = -1 is not rejected with the 400 validation error — the
handler only tests kmStart === undefined || kmStart === null — and a
trip record with the negative kmStart is written.  This refutes the
claimed kmStart >= 0 validation. -/
theorem c9_counterexample :
    exNegativeKmBody.kmStart = some (-1)
    ∧ (createTrip emptyStore exOwner exNegativeKmBody 5 100).1 ≠
        CreateTripRes.badRequest
    ∧ ((createTrip emptyStore exOwner exNegativeKmBody 5 100).2).trips ≠
        [] := by
  refine ⟨rfl, ?_, ?_⟩ <;> decide

/-- C9 amended: the create-trip validation requires presence only —
vehiclePlate, vehicleColor, vehicleModel, timeStart and destination
truthy and kmStart present (undefined/null rejected; 0 and negative
values accepted): the handler answers 400 exactly when one of those
presence checks fails, and then nothing is written to the store. -/
theorem c9_validation (store : Store) (user : User) (b : CreateTripBody)
    (tripId now : Nat) :
    ((createTrip store user b tripId now).1 = CreateTripRes.badRequest ↔
      createTripMissingField b = true)
    ∧ (createTripMissingField b = true →
        createTrip store user b tripId now =
          (CreateTripRes.badRequest, store)) := by
  by_cases hmiss : createTripMissingField b = true
  · refine ⟨?_, fun _ => ?_⟩
    · unfold createTrip
      rw [if_pos hmiss]
      simp [hmiss]
    · unfold createTrip
      rw [if_pos hmiss]
  · have hne : (createTrip store user b tripId now).1 ≠
        CreateTripRes.badRequest := by
      unfold createTrip
      rw [if_neg hmiss]
      cases hlt : latestTrip (tripsForPlate b.vehiclePlate store.trips) with
      | none => simp [createTripInsert]
      | some latest =>
          by_cases hs : latest.status = TripStatus.in_progress <;>
            simp [hs, createTripInsert]
    refine ⟨?_, fun hcon => absurd hcon hmiss⟩
    constructor
    · intro hbad; exact absurd hbad hne
    · intro hcon; exact absurd hcon hmiss
  
/-- Witness for C9's amended theorem: the request with an empty
destination is rejected with 400 and the empty store stays empty. -/
theorem c9_validation_witness :
    createTrip emptyStore exOwner exMissingFieldBody 5 100 =
      (CreateTripRes.badRequest, emptyStore) :=
  (c9_validation emptyStore exOwner exMissingFieldBody 5 100).2 (by decide)

/-- Headers with no credential at all. -/
def exHeadersNone : Headers :=
  { authorization := none, xAccessToken := none }

/-- Headers carrying both credential forms. -/
def exHeadersToken : Headers :=
  { authorization := some "Bearer abc", xAccessToken := some "xyz" }

/-- C10 counterexample: the signup endpoint is a non-health endpoint
that also skips the identity-resolver gate, so the settings read is not
the only one. -/
theorem c10_counterexample :
    callsValidateUser Endpoint.signup = false
    ∧ Endpoint.signup ≠ Endpoint.health
    ∧ Endpoint.signup ≠ Endpoint.settingsAdminRegistrationGet := by
  refine ⟨rfl, ?_, ?_⟩ <;> decide

/-- C10 amended: the settings read endpoint performs no identity
validation — its result is independent of the credential headers — and
returns the stored flag, false when absent; it is however not the only
non-health endpoint that skips authentication: exactly the health
check, the token test endpoint, the signup endpoint and the settings
read run without the validateUser gate. -/
theorem c10_settings_read_no_auth (store : Store) (h1 h2 : Headers) :
    getAdminRegistrationSetting store h1 = getAdminRegistrationSetting store h2
    ∧ (store.adminRegistration = none →
        getAdminRegistrationSetting store h1 = false)
    ∧ (∀ b : Bool, store.adminRegistration = some b →
        getAdminRegistrationSetting store h1 = b)
    ∧ callsValidateUser Endpoint.settingsAdminRegistrationGet = false
    ∧ (∀ e : Endpoint, callsValidateUser e = false ↔
        (e = Endpoint.health ∨ e = Endpoint.testToken ∨
          e = Endpoint.signup ∨ e = Endpoint.settingsAdminRegistrationGet)) := by
  refine ⟨rfl, ?_, ?_, rfl, ?_⟩
  · intro h
    simp [getAdminRegistrationSetting, h]
  · intro b hb
    simp [getAdminRegistrationSetting, hb]
  · intro e
    cases e <;> simp [callsValidateUser]

/-- Witness for C10's amended theorem: with and without credentials the
settings read returns the same value. -/
theorem c10_settings_read_no_auth_witness :
    getAdminRegistrationSetting emptyStore exHeadersNone =
      getAdminRegistrationSetting emptyStore exHeadersToken :=
  (c10_settings_read_no_auth emptyStore exHeadersNone exHeadersToken).1
